import Mathlib

/-!
Verification development for the MLBackend anomaly-detection core
(files ml_model.py, data_processor.py, app.py).

Shallow embedding conventions:
* Python floats are modelled as rationals (ℚ); none of the verified claims
  depends on floating-point rounding.
* Python dicts whose keys are fixed in the source are modelled as structures.
  A prediction dict may be probed for keys that the producer never writes
  (the source reads key "score" from dicts that carry "anomaly_score");
  such fields are `Option`-valued, with `none` meaning "key absent", and
  `Option.getD` models `dict.get(key, default)`.
* Python `ZeroDivisionError` inside a `try` block is modelled explicitly:
  the guarded computation returns `none` (resp. the source's `except`
  result) when a divisor is zero.
* External effects (serial port, database, Socket.IO emits, wall clock)
  are not modelled; outcomes of external calls that the control flow
  branches on (model-file loading, ML inference) are explicit parameters.
* The statistical/temporal feature numerics of data_processor.py
  (mean, std, percentiles, ...) are floating-point computations whose
  values no claim depends on; they enter through an abstract `stats`
  parameter, and every theorem quantifies over it.  The bookkeeping
  fields (`sample_count`, `buffer_size`, `window_full`) are embedded
  exactly.
-/

/-- Feature dictionary produced by `DataProcessor.process_voltage`
(data_processor.py).  Fields carry the keys read anywhere downstream;
unread presentation keys are omitted. -/
structure Features where
  voltage_mean : ℚ := 0
  voltage_std : ℚ := 0
  voltage_min : ℚ := 0
  voltage_max : ℚ := 0
  voltage_range : ℚ := 0
  voltage_median : ℚ := 0
  voltage_q25 : ℚ := 0
  voltage_q75 : ℚ := 0
  voltage_iqr : ℚ := 0
  voltage_skewness : ℚ := 0
  voltage_kurtosis : ℚ := 0
  voltage_cv : ℚ := 0
  time_span : ℚ := 0
  sample_count : ℕ := 0
  buffer_size : ℕ := 0
  window_full : Bool := false
  current_voltage : ℚ := 0
  current_timestamp : ℚ := 0
  deriving DecidableEq

/-- Prediction dict returned by `AnomalyDetector.predict` (ml_model.py).
The field `score` models the dict key "score": it is read by
`analyze_detection_session` and `save_session_to_history` in app.py via
`p.get('score', 0)`, but `predict` only ever writes `anomaly_score`,
so producers leave `score := none`.  `window_progress`, `window_size`
and `current_window` are display-only mirror fields no claim reads;
they are omitted. -/
structure Prediction where
  anomaly_score : Option ℚ := none
  is_anomaly : Option Bool := none
  confidence : Option ℚ := none
  method : Option String := none
  status : Option String := none
  score : Option ℚ := none
  deriving DecidableEq

/-- Result dict of `analyze_detection_session` (app.py).  In the
`insufficient_data` branch the source dict omits `avg_anomaly_score` and
`is_anomalous`; they default to `0` / `false` here, and no claim reads
them on that branch.  The source's presentation rounding
(`round(x, 1)` / `round(x, 3)`) and the `summary` string are omitted;
no claim depends on them. -/
structure SessionAnalysis where
  decision : String
  confidence : ℚ
  total_predictions : ℕ
  anomaly_count : ℕ
  anomaly_percentage : ℚ
  avg_anomaly_score : ℚ
  is_anomalous : Bool
  deriving DecidableEq

/-- Mutable state of `AnomalyDetector` (ml_model.py).  `has_model`
models `self.model is not None`; `has_scaler` models
`self.scaler is not None`.  `current_window` / `window_progress` are
display-only bookkeeping no claim reads; they are omitted. -/
structure AnomalyDetector where
  threshold : ℚ := 1/2
  model_type : Option String := none
  is_loaded : Bool := false
  has_model : Bool := false
  window_size : ℕ := 50
  has_scaler : Bool := false
  deriving DecidableEq

/-- Outcome of the external file-system / deserialization work inside
`AnomalyDetector.load_model`: which branch of the source runs. -/
inductive LoadOutcome where
  /-- `os.path.exists(model_path)` is false. -/
  | notFound
  /-- extension `.pkl`, `joblib.load` succeeds. -/
  | loadedSklearn
  /-- extension `.h5`, TensorFlow import and load succeed. -/
  | loadedTensorflow
  /-- extension `.h5`, `import tensorflow` raises ImportError. -/
  | tfImportError
  /-- extension `.pt`/`.pth`, torch import and load succeed. -/
  | loadedPytorch
  /-- extension `.pt`/`.pth`, `import torch` raises ImportError. -/
  | torchImportError
  /-- any other extension. -/
  | unsupportedExt
  /-- any exception escaping the `try` block (bad file, bad scaler, ...). -/
  | raised (msg : String)
  deriving DecidableEq

/-- Outcome of one raw ML inference call (`decision_function` /
`model.predict` / torch forward) on the prepared feature vector. -/
inductive InfOutcome where
  | ok (raw : ℚ)
  | error (msg : String)
  deriving DecidableEq

/-- `AnomalyDetector.load_model` (ml_model.py lines 34-91).  Every branch
ends with `is_loaded = True`; every failure branch installs the
rule-based fallback (`model = None`, `model_type = 'rule_based'`).
The scaler block (`if os.path.exists(scaler_path): ...`) runs on all
paths except the early `notFound` return and the outer `except`. -/
def load_model (d : AnomalyDetector) (o : LoadOutcome) (scalerExists : Bool) :
    AnomalyDetector :=
  match o with
  | .notFound =>
      { d with has_model := false, model_type := some "rule_based", is_loaded := true }
  | .loadedSklearn =>
      { d with has_model := true, model_type := some "sklearn",
               has_scaler := if scalerExists then true else d.has_scaler,
               is_loaded := true }
  | .loadedTensorflow =>
      { d with has_model := true, model_type := some "tensorflow",
               has_scaler := if scalerExists then true else d.has_scaler,
               is_loaded := true }
  | .tfImportError =>
      { d with has_model := false, model_type := some "rule_based",
               has_scaler := if scalerExists then true else d.has_scaler,
               is_loaded := true }
  | .loadedPytorch =>
      { d with has_model := true, model_type := some "pytorch",
               has_scaler := if scalerExists then true else d.has_scaler,
               is_loaded := true }
  | .torchImportError =>
      { d with has_model := false, model_type := some "rule_based",
               has_scaler := if scalerExists then true else d.has_scaler,
               is_loaded := true }
  | .unsupportedExt =>
      { d with has_model := false, model_type := some "rule_based",
               has_scaler := if scalerExists then true else d.has_scaler,
               is_loaded := true }
  | .raised _ =>
      { d with has_model := false, model_type := some "rule_based", is_loaded := true }

/-- `AnomalyDetector._rule_based_predict` (ml_model.py lines 192-230).
`range_div_mean` is the source's local `range_ratio`.  When the
confidence divisor is zero the source raises `ZeroDivisionError`, lands
in its own `except` and returns the zeroed dict with `method='error'`. -/
def rule_based_predict (d : AnomalyDetector) (f : Features) : Prediction :=
  let cv : ℚ := if f.voltage_mean ≠ 0 then f.voltage_std / f.voltage_mean else 0
  let voltage_range : ℚ := f.voltage_max - f.voltage_min
  let range_div_mean : ℚ := if f.voltage_mean ≠ 0 then voltage_range / f.voltage_mean else 0
  let variability_score : ℚ := min 1 ((cv * 2 + range_div_mean) / 2)
  let denom : ℚ := if variability_score > d.threshold then 1 - d.threshold else d.threshold
  if denom = 0 then
    { anomaly_score := some 0, is_anomaly := some false, confidence := some 0,
      method := some "error" }
  else
    { anomaly_score := some variability_score,
      is_anomaly := some (decide (variability_score > d.threshold)),
      confidence := some (min 1 (|variability_score - d.threshold| / denom)),
      method := some "rule_based" }

/-- Shared tail of the model branches of `_ml_predict` (ml_model.py lines
177-186): threshold comparison plus normalized-distance confidence.
`none` models the `ZeroDivisionError` raised when the divisor is zero
(threshold 1 with an anomalous score, or threshold 0 otherwise). -/
def mlScoreResult (d : AnomalyDetector) (s : ℚ) (backend : String) : Option Prediction :=
  let denom : ℚ := if s > d.threshold then 1 - d.threshold else d.threshold
  if denom = 0 then none
  else some
    { anomaly_score := some s, is_anomaly := some (decide (s > d.threshold)),
      confidence := some (min 1 (|s - d.threshold| / denom)),
      method := some ("ml_model_" ++ backend) }

/-- `AnomalyDetector._ml_predict` (ml_model.py lines 144-190).  Any
exception inside the `try` — a failed inference call or the
`ZeroDivisionError` from the confidence computation — is caught and the
call falls back to `_rule_based_predict`.  The sklearn branch rescales
by `(raw+1)/2` and clamps to `[0,1]`; the tensorflow and pytorch
branches use the raw output unclamped. -/
def ml_predict (d : AnomalyDetector) (inf : InfOutcome) (f : Features) : Prediction :=
  match inf with
  | .error _ => rule_based_predict d f
  | .ok raw =>
    let res : Option Prediction :=
      if d.model_type = some "sklearn" then
        mlScoreResult d (max 0 (min 1 ((raw + 1) / 2))) "sklearn"
      else if d.model_type = some "tensorflow" then
        mlScoreResult d raw "tensorflow"
      else if d.model_type = some "pytorch" then
        mlScoreResult d raw "pytorch"
      else some (rule_based_predict d f)
    match res with
    | some p => p
    | none => rule_based_predict d f

/-- The dict returned by the outer `except` of `predict`
(ml_model.py lines 130-142). -/
def predictionError : Prediction :=
  { anomaly_score := some 0, is_anomaly := some false, confidence := some 0,
    method := some "error", status := some "error" }

/-- `AnomalyDetector.predict` (ml_model.py lines 93-128).  With
`window_size = 0` the `window_progress` computation raises
`ZeroDivisionError`, caught by the outer `except`.  Below the window the
call short-circuits without touching either backend (the result does not
depend on `inf`).  Otherwise the dict of the chosen backend is merged in
and `status` is overwritten with `ml_ready`. -/
def predict (d : AnomalyDetector) (inf : InfOutcome) (f : Features) : Prediction :=
  if d.window_size = 0 then predictionError
  else if f.sample_count < d.window_size then
    { anomaly_score := some 0, is_anomaly := some false, confidence := some 0,
      method := some (d.model_type.getD "rule_based"), status := some "warming_up" }
  else
    let r := if d.has_model ∧ d.model_type ≠ some "rule_based"
             then ml_predict d inf f else rule_based_predict d f
    { r with status := some "ml_ready" }

/-- Rule-based score as the specification words it: fixed increments for
exceeded sub-thresholds, capped at 1.  Transcribed from the spec (not
from the source) for comparison with `rule_based_predict`. -/
def specRuleBasedScore (f : Features) : ℚ :=
  min 1 ((if f.voltage_std > 1/2 then (3:ℚ)/10 else 0)
    + (if f.voltage_max - f.voltage_min > 2 then (1:ℚ)/5 else 0)
    + (if |f.voltage_skewness| > 1 then (1:ℚ)/5 else 0)
    + (if f.voltage_kurtosis > 3 then (1:ℚ)/5 else 0))

/-- Rule-based confidence as the specification words it.  Transcribed
from the spec (not from the source) for comparison with
`rule_based_predict`. -/
def specRuleBasedConfidence (f : Features) : ℚ :=
  min (4/5) (1/2 + f.voltage_std * (3/10))

/-- `analyze_detection_session` (app.py lines 66-118) as a function of
the collected prediction list.  Note the source averages
`p.get('score', 0)` — the key "score" — not `anomaly_score`. -/
def analyze_detection_session (preds : List Prediction) : SessionAnalysis :=
  if preds.isEmpty then
    { decision := "insufficient_data", confidence := 0, total_predictions := 0,
      anomaly_count := 0, anomaly_percentage := 0, avg_anomaly_score := 0,
      is_anomalous := false }
  else
    let total : ℕ := preds.length
    let anomaly_count : ℕ := (preds.filter (fun p => p.is_anomaly.getD false)).length
    let anomaly_percentage : ℚ := ((anomaly_count : ℚ) / (total : ℚ)) * 100
    let avg_confidence : ℚ := (preds.map (fun p => p.confidence.getD 0)).sum / (total : ℚ)
    let avg_anomaly_score : ℚ := (preds.map (fun p => p.score.getD 0)).sum / (total : ℚ)
    { decision := if anomaly_percentage > 20 ∨ avg_anomaly_score > 7/10
                  then "anomalous" else "normal",
      confidence := avg_confidence, total_predictions := total,
      anomaly_count := anomaly_count, anomaly_percentage := anomaly_percentage,
      avg_anomaly_score := avg_anomaly_score,
      is_anomalous := decide (anomaly_percentage > 20 ∨ avg_anomaly_score > 7/10) }

/-- One archived entry of `session_history` (app.py).  The source dict's
`id`, `timestamp`, `user_id`, `model_name` and `chart_data` fields are
wall-clock / presentation data no claim reads; the analysis payload and
stop reason are kept. -/
structure SessionEntry where
  analysis : SessionAnalysis
  stop_reason : String
  deriving DecidableEq

/-- `save_session_to_history` (app.py lines 120-154) restricted to its
effect on the history list: append, then keep only the last 10
(`session_history[-10:]`). -/
def save_session_to_history (hist : List SessionEntry) (a : SessionAnalysis)
    (stop_reason : String) : List SessionEntry :=
  let h := hist ++ [{ analysis := a, stop_reason := stop_reason }]
  if 10 < h.length then h.drop (h.length - 10) else h

/-- Mutable state of `DataProcessor` (data_processor.py).  The two
`deque(maxlen=window_size)` buffers are lists with explicit FIFO
eviction. -/
structure DataProcessor where
  window_size : ℕ := 50
  voltage_buffer : List ℚ := []
  timestamp_buffer : List ℚ := []
  sample_count : ℕ := 0
  start_time : Option ℚ := none
  deriving DecidableEq

/-- Append to a `deque(maxlen=W)`: push right, evict from the left on
overflow. -/
def dequeAppend (W : ℕ) (buf : List ℚ) (v : ℚ) : List ℚ :=
  let b := buf ++ [v]
  if W < b.length then b.drop (b.length - W) else b

/-- Statistical/temporal feature computation of
`_calculate_statistical_features` + `_calculate_temporal_features`:
a floating-point numeric block abstracted as a function of the two
buffers and `start_time` (see file header).  Every theorem below
quantifies over it. -/
abbrev StatsFun := List ℚ → List ℚ → Option ℚ → Features

/-- `DataProcessor.process_voltage` (data_processor.py lines 16-47):
set `start_time` on the first sample, push into both bounded buffers,
bump the monotone `sample_count`, then build the feature dict — the
statistical part through `stats`, the bookkeeping keys exactly as in
the source (`window_full = len(buffer) >= window_size`). -/
def process_voltage (stats : StatsFun) (dp : DataProcessor) (v t : ℚ) :
    DataProcessor × Features :=
  let start : ℚ := dp.start_time.getD t
  let vb := dequeAppend dp.window_size dp.voltage_buffer v
  let tb := dequeAppend dp.window_size dp.timestamp_buffer t
  let n := dp.sample_count + 1
  let base := stats vb tb (some start)
  let f : Features :=
    { base with sample_count := n, buffer_size := vb.length,
                window_full := decide (dp.window_size ≤ vb.length),
                current_voltage := v, current_timestamp := t }
  ({ dp with voltage_buffer := vb, timestamp_buffer := tb,
             sample_count := n, start_time := some start }, f)

/-- Feed a list of `(value, timestamp)` readings through
`process_voltage`, collecting the produced feature dicts. -/
def processAll (stats : StatsFun) (dp : DataProcessor) :
    List (ℚ × ℚ) → DataProcessor × List Features
  | [] => (dp, [])
  | r :: rs =>
    let step := process_voltage stats dp r.1 r.2
    let rest := processAll stats step.1 rs
    (rest.1, step.2 :: rest.2)

/-- A fresh `DataProcessor(window_size=W)`. -/
def freshProcessor (W : ℕ) : DataProcessor :=
  { window_size := W, voltage_buffer := [], timestamp_buffer := [],
    sample_count := 0, start_time := none }

/-- The module-level mutable state of app.py that the detection
pipeline reads and writes.  `current_model` abstracts
`current_model_id` together with a successful `ModelService` lookup
(the database is external); `current_user` abstracts
`current_user_id is not None`; `timer_alive` abstracts
`auto_stop_timer and auto_stop_timer.is_alive()`. -/
structure ServerState where
  detection_running : Bool := false
  serial_connected : Bool := false
  data_collection_active : Bool := true
  current_detector : Option AnomalyDetector := none
  current_model : Option String := none
  current_user : Bool := false
  detection_predictions : List Prediction := []
  detection_window_complete : Bool := false
  session_history : List SessionEntry := []
  timer_alive : Bool := false
  sample_counter : ℕ := 0
  processor : DataProcessor := {}
  deriving DecidableEq

/-- `handle_update_threshold` (app.py lines 528-543): clamp and install
the new threshold on the current detector, if any
(`AnomalyDetector.update_threshold`, ml_model.py lines 249-252). -/
def handle_update_threshold (st : ServerState) (t : ℚ) : ServerState :=
  match st.current_detector with
  | none => st
  | some d => { st with current_detector := some { d with threshold := max 0 (min 1 t) } }

/-- `handle_start_detection` (app.py lines 318-433), state effect only.
Guard order as in the source: already running / no serial / no model /
no user each return without touching state.  On success a *fresh*
`AnomalyDetector()` is constructed (all defaults, threshold 1/2) and
`load_model` is run on it; the session tally and window flag are reset
and the 30-second auto-stop timer is started. -/
def handle_start_detection (o : LoadOutcome) (scalerExists : Bool)
    (st : ServerState) : ServerState :=
  if st.detection_running then st
  else if ¬ st.serial_connected then st
  else if st.current_model.isNone then st
  else if ¬ st.current_user then st
  else
    { st with
      current_detector := some (load_model {} o scalerExists),
      detection_running := true,
      detection_predictions := [],
      detection_window_complete := false,
      timer_alive := true }

/-- `handle_stop_detection` (app.py lines 463-526), state effect only.
Not running is a no-op.  Otherwise: stop, analyze, archive when at
least one prediction was collected, cancel the pending timer, drop the
detector and clear the tally. -/
def handle_stop_detection (st : ServerState) : ServerState :=
  if ¬ st.detection_running then st
  else
    let analysis := analyze_detection_session st.detection_predictions
    let hist :=
      if 0 < analysis.total_predictions then
        save_session_to_history st.session_history analysis "manual_stop"
      else st.session_history
    { st with detection_running := false, session_history := hist,
              timer_alive := false, current_detector := none,
              detection_predictions := [] }

/-- The auto-stop timer callback `auto_stop_detection`
(app.py lines 379-410): if still running, stop, analyze and archive
when at least one prediction was collected.  The fired timer is no
longer pending (`timer_alive := false`); note that this path does
*not* clear `detection_predictions` and does not drop the detector. -/
def auto_stop_detection (st : ServerState) : ServerState :=
  if st.detection_running then
    let analysis := analyze_detection_session st.detection_predictions
    let hist :=
      if 0 < analysis.total_predictions then
        save_session_to_history st.session_history analysis "timeout"
      else st.session_history
    { st with detection_running := false, session_history := hist,
              timer_alive := false }
  else st

/-- One iteration of the `arduino_connection_loop` body for a valid
voltage line (app.py lines 764-877): bump `sample_counter`, always run
the feature extractor, publish the raw event, and only when detection
is running with a detector present and `sample_counter % 3 == 0`
(`SAMPLE_EVERY_N = 3`) run `predict`, append the prediction to the
session tally, update `detection_window_complete`, and — once the
window is complete and at least 50 `ml_ready` predictions are
collected — archive the session with reason `analysis_complete`, stop,
and cancel the pending timer.  Returns the prediction made, if any. -/
def reading_step (stats : StatsFun) (inf : InfOutcome) (v t : ℚ)
    (st : ServerState) : ServerState × Option Prediction :=
  let counter := st.sample_counter + 1
  let pr := process_voltage stats st.processor v t
  let st1 := { st with sample_counter := counter, processor := pr.1 }
  match st.current_detector with
  | none => (st1, none)
  | some d =>
    if st1.detection_running ∧ counter % 3 = 0 then
      let p := predict d inf pr.2
      let preds := st1.detection_predictions ++ [p]
      let wc := st1.detection_window_complete || decide (p.status = some "ml_ready")
      let st2 := { st1 with detection_predictions := preds,
                            detection_window_complete := wc }
      let st3 :=
        if wc ∧ 50 ≤ (preds.filter (fun q => decide (q.status = some "ml_ready"))).length then
          { st2 with
            session_history :=
              save_session_to_history st2.session_history
                (analyze_detection_session preds) "analysis_complete",
            detection_running := false,
            timer_alive := false }
        else st2
      (st3, some p)
    else (st1, none)

/-- Run `reading_step` over a list of readings, discarding the emitted
predictions. -/
def runReadings (stats : StatsFun) (inf : InfOutcome) :
    List (ℚ × ℚ) → ServerState → ServerState
  | [], st => st
  | r :: rs, st => runReadings stats inf rs (reading_step stats inf r.1 r.2 st).1

/-- Number of readings among the next `k` that the mod-3 sampling gate
forwards to the scorer, when the counter currently reads `c`. -/
def countScored (c : ℕ) : ℕ → ℕ
  | 0 => 0
  | k + 1 => (if (c + 1) % 3 = 0 then 1 else 0) + countScored (c + 1) k

/-- Every archived history entry carries a non-empty analysis that is
not an insufficient-data verdict. -/
def historyOK (h : List SessionEntry) : Prop :=
  ∀ e ∈ h, 0 < e.analysis.total_predictions ∧
    e.analysis.decision ≠ "insufficient_data"

/-! ### Concrete objects used by counterexamples and witnesses -/

/-- A freshly constructed `AnomalyDetector()` (all source defaults). -/
def d0 : AnomalyDetector := {}

/-- A detector with a loaded TensorFlow model. -/
def dTF : AnomalyDetector := { model_type := some "tensorflow", has_model := true }

/-- The trivial abstract statistics function (all feature numerics 0),
used to instantiate witnesses. -/
def constStats : StatsFun := fun _ _ _ => {}

/-- Feature set with std 0.6, mean 10, range 2. -/
def fC2 : Features :=
  { voltage_std := 3/5, voltage_mean := 10, voltage_max := 11, voltage_min := 9 }

/-- Feature set with a negative mean (a legal window of negative
voltages: mean -1, std 1, min -3/2, max -1/2), past the window. -/
def fC4 : Features :=
  { voltage_mean := -1, voltage_std := 1, voltage_max := -1/2, voltage_min := -3/2,
    sample_count := 100 }

/-- An `ml_ready` prediction flagged anomalous with anomaly score 0.75,
shaped exactly as `predict` produces it (no "score" key). -/
def pAnom : Prediction :=
  { anomaly_score := some (3/4), is_anomaly := some true, confidence := some (4/5),
    method := some "rule_based", status := some "ml_ready" }

/-- Same prediction, not flagged. -/
def pNorm : Prediction := { pAnom with is_anomaly := some false }

/-- A session of 10 predictions, 1 flagged, all with anomaly score 0.75. -/
def predsC1 : List Prediction :=
  [pAnom, pNorm, pNorm, pNorm, pNorm, pNorm, pNorm, pNorm, pNorm, pNorm]

/-- The closed-form score the source's rule-based backend computes
(ml_model.py lines 196-209), for stating the corrected claim C2. -/
def codeRuleScore (f : Features) : ℚ :=
  min 1 (((if f.voltage_mean ≠ 0 then f.voltage_std / f.voltage_mean else 0) * 2 +
          (if f.voltage_mean ≠ 0 then (f.voltage_max - f.voltage_min) / f.voltage_mean else 0)) / 2)

/-! ### C1 -/

/-- Claim C1 (code bug witness): a finalized session of ten predictions
produced by `predict`, one flagged anomalous (10%), every one carrying
`anomaly_score = 0.75` — so the claimed score rule (average anomaly
score 0.75 > 0.7) demands decision `anomalous` — is decided `normal`:
`analyze_detection_session` averages the absent dict key "score"
(`p.get('score', 0)`), obtaining 0, instead of the `anomaly_score` key
the predictions actually carry (the key database.py reads from the very
same dicts). -/
theorem C1_score_key_bug :
    (analyze_detection_session predsC1).decision = "normal"
    ∧ (analyze_detection_session predsC1).anomaly_percentage = 10
    ∧ ((predsC1.map (fun p => p.anomaly_score.getD 0)).sum / (predsC1.length : ℚ)) = 3/4
    ∧ ((7 : ℚ)/10 < 3/4)
    ∧ (analyze_detection_session predsC1).avg_anomaly_score = 0 := by
  norm_num [analyze_detection_session, predsC1, pAnom, pNorm]

/-! ### C2 -/

/-- Claim C2 is false on the code: at std 0.6 / mean 10 / range 2 the
spec's increment rule gives 0.3 (only std > 0.5 fires), but
`_rule_based_predict` returns 4/25 = 0.16. -/
theorem C2_counterexample :
    (rule_based_predict d0 fC2).anomaly_score = some (4/25)
    ∧ specRuleBasedScore fC2 = 3/10
    ∧ ((4 : ℚ)/25 ≠ 3/10) := by
  norm_num [rule_based_predict, specRuleBasedScore, d0, fC2]

/-- Claim C2 (amended): for every feature set, when `0 < threshold < 1`
(so the confidence division cannot raise), the rule-based backend
returns score `min(1, (2*(std/mean) + (max-min)/mean)/2)` (both
fraction terms 0 when `mean = 0`), flags `score > threshold`, and
returns confidence `min(1, |score-threshold|/(1-threshold))` above the
threshold and `min(1, |score-threshold|/threshold)` otherwise, with
method `rule_based` — not the spec's fixed-increment score and not its
`min(0.8, 0.5 + std*0.3)` confidence. -/
theorem C2_rule_formula (d : AnomalyDetector) (f : Features)
    (h0 : 0 < d.threshold) (h1 : d.threshold < 1) :
    (rule_based_predict d f).anomaly_score = some (codeRuleScore f)
    ∧ (rule_based_predict d f).is_anomaly = some (decide (codeRuleScore f > d.threshold))
    ∧ (rule_based_predict d f).confidence = some (min 1 (|codeRuleScore f - d.threshold| /
        (if codeRuleScore f > d.threshold then 1 - d.threshold else d.threshold)))
    ∧ (rule_based_predict d f).method = some "rule_based" := by
  have hden : (if codeRuleScore f > d.threshold
      then 1 - d.threshold else d.threshold) ≠ 0 := by
    split <;> intro hc <;> linarith
  simp only [rule_based_predict, codeRuleScore] at *
  rw [if_neg hden]
  exact ⟨rfl, rfl, rfl, rfl⟩

/-- Witness for C2_rule_formula at the default detector and `fC2`. -/
theorem C2_rule_formula_witness :
    0 < d0.threshold ∧ d0.threshold < 1
    ∧ (rule_based_predict d0 fC2).anomaly_score = some (4/25) := by
  refine ⟨by norm_num [d0], by norm_num [d0], ?_⟩
  have h := (C2_rule_formula d0 fC2 (by norm_num [d0]) (by norm_num [d0])).1
  rw [h]
  norm_num [codeRuleScore, fC2]

/-! ### C4 -/

/-- The rule-based score is either 0 (the division-by-zero `except`
path) or the closed-form `codeRuleScore`. -/
theorem rule_based_predict_score (d : AnomalyDetector) (f : Features) :
    (rule_based_predict d f).anomaly_score = some 0 ∨
    (rule_based_predict d f).anomaly_score = some (codeRuleScore f) := by
  simp only [rule_based_predict, codeRuleScore]
  repeat' split
  all_goals first | exact Or.inl rfl | exact Or.inr rfl

/-- Claim C4 is false on the code: on a window of negative voltages
(mean -1, std 1, range 1) the rule-based score is -3/2, outside [0,1]
(`min(1, ·)` caps only from above and the cv / range terms are negative
for a negative mean); and the tensorflow branch returns the raw
inference output unclamped (raw 2 scores 2). -/
theorem C4_counterexample :
    (predict d0 (.ok 0) fC4).anomaly_score = some (-(3/2))
    ∧ ((-(3/2) : ℚ) < 0)
    ∧ (predict dTF (.ok 2) fC4).anomaly_score = some 2
    ∧ ((1 : ℚ) < 2) := by
  norm_num [predict, ml_predict, mlScoreResult, rule_based_predict, d0, dTF, fC4]
  rw [if_neg (show ¬("tensorflow" = "rule_based") by decide),
      if_neg (show ¬("tensorflow" = "sklearn") by decide)]

/-- Claim C4 (amended): the sklearn backend's score is
`max(0, min(1, (raw+1)/2))` — the raw output rescaled then clamped —
and hence lies in [0,1]; the rule-based score is capped above at 1
always, and lies in [0,1] whenever the window mean is positive, the
std is non-negative and min ≤ max; the tensorflow (and pytorch) score
is the raw inference output, unclamped.  (Threshold strictly inside
(0,1) keeps the confidence division from raising.) -/
theorem C4_score_bounds (d : AnomalyDetector) (raw : ℚ) (f : Features) :
    (d.model_type = some "sklearn" → 0 < d.threshold → d.threshold < 1 →
      (ml_predict d (.ok raw) f).anomaly_score = some (max 0 (min 1 ((raw + 1) / 2)))
      ∧ 0 ≤ max 0 (min 1 ((raw + 1) / 2)) ∧ max 0 (min 1 ((raw + 1) / 2)) ≤ 1)
    ∧ (∃ s, (rule_based_predict d f).anomaly_score = some s ∧ s ≤ 1)
    ∧ (0 < f.voltage_mean → 0 ≤ f.voltage_std → f.voltage_min ≤ f.voltage_max →
        ∃ s, (rule_based_predict d f).anomaly_score = some s ∧ 0 ≤ s ∧ s ≤ 1)
    ∧ (d.model_type = some "tensorflow" → 0 < d.threshold → d.threshold < 1 →
        (ml_predict d (.ok raw) f).anomaly_score = some raw)
    ∧ (d.model_type = some "pytorch" → 0 < d.threshold → d.threshold < 1 →
        (ml_predict d (.ok raw) f).anomaly_score = some raw) := by
  refine ⟨?_, ?_, ?_, ?_, ?_⟩
  · intro hmt h0 h1
    have hden : (if max 0 (min 1 ((raw + 1) / 2)) > d.threshold
        then 1 - d.threshold else d.threshold) ≠ 0 := by
      split <;> intro hc <;> linarith
    simp only [ml_predict, mlScoreResult, hmt, if_pos rfl]
    rw [if_neg hden]
    exact ⟨rfl, le_max_left 0 _, max_le zero_le_one (min_le_left 1 _)⟩
  · rcases rule_based_predict_score d f with h | h
    · exact ⟨0, h, zero_le_one⟩
    · refine ⟨codeRuleScore f, h, ?_⟩
      simp only [codeRuleScore]
      exact min_le_left _ _
  · intro hm hstd hmm
    have hne : f.voltage_mean ≠ 0 := ne_of_gt hm
    have hnn : (0:ℚ) ≤ codeRuleScore f := by
      simp only [codeRuleScore, if_pos hne]
      refine le_min zero_le_one ?_
      have h1 : (0:ℚ) ≤ f.voltage_std / f.voltage_mean := div_nonneg hstd hm.le
      have h2 : (0:ℚ) ≤ (f.voltage_max - f.voltage_min) / f.voltage_mean :=
        div_nonneg (by linarith) hm.le
      linarith
    rcases rule_based_predict_score d f with h | h
    · exact ⟨0, h, le_refl 0, zero_le_one⟩
    · refine ⟨codeRuleScore f, h, hnn, ?_⟩
      simp only [codeRuleScore]
      exact min_le_left _ _
  · intro hmt h0 h1
    have hden : (if raw > d.threshold then 1 - d.threshold else d.threshold) ≠ 0 := by
      split <;> intro hc <;> linarith
    simp only [ml_predict, mlScoreResult, hmt]
    rw [if_pos (trivial : True), if_neg hden]
    rw [if_neg (show ¬((some "tensorflow" : Option String) = some "sklearn") by decide)]
  · intro hmt h0 h1
    have hden : (if raw > d.threshold then 1 - d.threshold else d.threshold) ≠ 0 := by
      split <;> intro hc <;> linarith
    simp only [ml_predict, mlScoreResult, hmt]
    rw [if_pos (trivial : True), if_neg hden]
    rw [if_neg (show ¬((some "pytorch" : Option String) = some "sklearn") by decide)]
    rw [if_neg (show ¬((some "pytorch" : Option String) = some "tensorflow") by decide)]
    rw [if_neg hden]

/-- A detector with a loaded PyTorch model. -/
def dPT : AnomalyDetector := { model_type := some "pytorch", has_model := true }

/-- Witness for C4_score_bounds: sklearn clamp at raw 5, tensorflow
passthrough at raw 2, pytorch passthrough at raw 2, threshold 1/2. -/
theorem C4_score_bounds_witness :
    ((0:ℚ) < (1:ℚ)/2) ∧ ((1:ℚ)/2 < 1)
    ∧ (ml_predict { d0 with model_type := some "sklearn", has_model := true }
        (.ok 5) fC2).anomaly_score = some (max 0 (min 1 (((5:ℚ) + 1) / 2)))
    ∧ (ml_predict dTF (.ok 2) fC2).anomaly_score = some 2
    ∧ (ml_predict dPT (.ok 2) fC2).anomaly_score = some 2 := by
  refine ⟨by norm_num, by norm_num, ?_, ?_, ?_⟩
  · exact ((C4_score_bounds { d0 with model_type := some "sklearn", has_model := true }
      5 fC2).1 rfl (by norm_num [d0]) (by norm_num [d0])).1
  · exact (C4_score_bounds dTF 2 fC2).2.2.2.1 rfl
      (by norm_num [dTF, d0]) (by norm_num [dTF, d0])
  · exact (C4_score_bounds dPT 2 fC2).2.2.2.2 rfl
      (by norm_num [dPT, d0]) (by norm_num [dPT, d0])

/-! ### C9 -/

/-- Claim C9: `save_session_to_history` keeps the history at no more
than 10 entries, and appending to a full history of 10 evicts exactly
the oldest entry, preserving the relative order of the surviving 10
(the result is `h.drop 1 ++ [new]`). -/
theorem C9_history_capacity (h : List SessionEntry) (a : SessionAnalysis) (r : String) :
    (h.length ≤ 10 → (save_session_to_history h a r).length ≤ 10)
    ∧ (h.length = 10 →
        save_session_to_history h a r
          = h.drop 1 ++ [{ analysis := a, stop_reason := r }]) := by
  constructor
  · intro hl
    simp only [save_session_to_history]
    split
    · simp only [List.length_drop]
      omega
    · simp only [List.length_append, List.length_cons, List.length_nil] at *
      omega
  · intro hl
    simp only [save_session_to_history]
    have hlen : (h ++ [({ analysis := a, stop_reason := r } : SessionEntry)]).length = 11 := by
      simp [hl]
    rw [if_pos (by rw [hlen]; norm_num), hlen]
    exact List.drop_append_of_le_length (by rw [hl]; norm_num)

/-- An arbitrary archived entry used by the C9 witness. -/
def e0 : SessionEntry :=
  { analysis := analyze_detection_session [], stop_reason := "x" }

/-- A full history of 10 entries. -/
def h10 : List SessionEntry :=
  [e0, e0, e0, e0, e0, e0, e0, e0, e0, e0]

/-- Witness for C9_history_capacity: appending an 11th entry to a
10-entry history evicts the first entry. -/
theorem C9_history_capacity_witness :
    h10.length = 10
    ∧ save_session_to_history h10 (analyze_detection_session []) "manual_stop"
        = h10.drop 1 ++ [{ analysis := analyze_detection_session [],
                           stop_reason := "manual_stop" }] :=
  ⟨by decide, (C9_history_capacity h10 (analyze_detection_session []) "manual_stop").2
    (by decide)⟩

/-! ### C5 -/

/-- A connected, logged-in, model-selected, idle state with a current
detector at the default threshold. -/
def stC5 : ServerState :=
  { serial_connected := true, current_model := some "m", current_user := true,
    current_detector := some d0 }

/-- Claim C5 is false on the code: after `update_threshold(0.9)`, the
next `start_detection` constructs a brand-new `AnomalyDetector()` whose
threshold is the default 0.5, so a detection-session start *does*
change the threshold subsequent scoring reads. -/
theorem C5_counterexample :
    ((handle_update_threshold stC5 (9/10)).current_detector.map AnomalyDetector.threshold
        = some (9/10))
    ∧ ((handle_start_detection .notFound false
          (handle_update_threshold stC5 (9/10))).current_detector.map
            AnomalyDetector.threshold = some (1/2))
    ∧ ((9:ℚ)/10 ≠ 1/2) := by
  refine ⟨?_, ?_, by norm_num⟩
  · norm_num [handle_update_threshold, stC5, d0]
  · norm_num [handle_update_threshold, handle_start_detection, load_model, stC5, d0]

/-- Claim C5 (amended): `update_threshold(t)` installs `clamp(t)` on the
current detector; the reading/scoring loop and the auto-stop timer
never change the current detector (hence its threshold); but
`start_detection` (on a successful start) replaces the detector with a
freshly constructed one whose threshold is the default 1/2 regardless
of the load outcome — resetting any earlier update. -/
theorem C5_threshold_frame (st : ServerState) (t : ℚ) (d : AnomalyDetector)
    (o : LoadOutcome) (sc : Bool) (stats : StatsFun) (inf : InfOutcome) (v ts : ℚ) :
    (st.current_detector = some d →
      (handle_update_threshold st t).current_detector
        = some { d with threshold := max 0 (min 1 t) })
    ∧ ((reading_step stats inf v ts st).1.current_detector = st.current_detector)
    ∧ ((auto_stop_detection st).current_detector = st.current_detector)
    ∧ ((load_model {} o sc).threshold = 1/2)
    ∧ (st.detection_running = false → st.serial_connected = true →
        st.current_model.isSome → st.current_user = true →
        (handle_start_detection o sc st).current_detector = some (load_model {} o sc)) := by
  refine ⟨?_, ?_, ?_, ?_, ?_⟩
  · intro h
    simp [handle_update_threshold, h]
  · rcases hcd : st.current_detector with _ | d2
    · simp [reading_step, hcd]
    · simp only [reading_step, hcd]
      repeat' split
      all_goals rfl
  · simp only [auto_stop_detection]
    repeat' split
    all_goals rfl
  · cases o <;> rfl
  · intro h1 h2 h3 h4
    obtain ⟨m, hm⟩ := Option.isSome_iff_exists.mp h3
    simp [handle_start_detection, h1, h2, hm, h4]

/-- Witness for C5_threshold_frame at `stC5`. -/
theorem C5_threshold_frame_witness :
    stC5.current_detector = some d0
    ∧ (handle_update_threshold stC5 (9/10)).current_detector
        = some { d0 with threshold := max 0 (min 1 (9/10)) }
    ∧ (handle_start_detection .notFound false stC5).current_detector
        = some (load_model {} .notFound false) :=
  ⟨rfl,
   (C5_threshold_frame stC5 (9/10) d0 .notFound false (fun _ _ _ => {}) (.ok 0) 0 0).1 rfl,
   (C5_threshold_frame stC5 (9/10) d0 .notFound false (fun _ _ _ => {}) (.ok 0) 0 0).2.2.2.2
     rfl rfl rfl rfl⟩

/-! ### C6 -/

/-- An `ml_ready` prediction as collected into a running session. -/
def pML : Prediction :=
  { anomaly_score := some (1/2), is_anomaly := some false, confidence := some 1,
    method := some "rule_based", status := some "ml_ready" }

/-- A running session holding one collected prediction, with the
auto-stop timer pending. -/
def stC6 : ServerState :=
  { detection_running := true, timer_alive := true, detection_predictions := [pML] }

/-- Claim C6 is false on the code: the 30-second timeout finalizer
(`auto_stop_detection`) archives the session but does *not* clear the
prediction tally — after it fires the tally still holds the collected
prediction. -/
theorem C6_counterexample :
    (auto_stop_detection stC6).detection_running = false
    ∧ (auto_stop_detection stC6).detection_predictions = [pML]
    ∧ [pML] ≠ ([] : List Prediction) := by
  refine ⟨rfl, rfl, by simp⟩

/-- Claim C6 (amended): on manual stop the controller stops, cancels
the pending timer, clears the tally and the detector, and archives the
session when at least one prediction was collected; the 30-second
timeout also stops and archives under the same condition, but leaves
the prediction tally and the detector in place; and the count-based
completion inside the reading loop (window complete and 50 `ml_ready`
predictions collected) stops, cancels the pending timer and archives
with reason `analysis_complete`, likewise leaving the just-extended
tally and the detector in place. -/
theorem C6_finalize_effects (st : ServerState) (h : st.detection_running = true) :
    ((handle_stop_detection st).detection_running = false
      ∧ (handle_stop_detection st).timer_alive = false
      ∧ (handle_stop_detection st).detection_predictions = []
      ∧ (handle_stop_detection st).current_detector = none
      ∧ (handle_stop_detection st).session_history =
          (if 0 < (analyze_detection_session st.detection_predictions).total_predictions
           then save_session_to_history st.session_history
                  (analyze_detection_session st.detection_predictions) "manual_stop"
           else st.session_history))
    ∧ ((auto_stop_detection st).detection_running = false
      ∧ (auto_stop_detection st).timer_alive = false
      ∧ (auto_stop_detection st).detection_predictions = st.detection_predictions
      ∧ (auto_stop_detection st).current_detector = st.current_detector
      ∧ (auto_stop_detection st).session_history =
          (if 0 < (analyze_detection_session st.detection_predictions).total_predictions
           then save_session_to_history st.session_history
                  (analyze_detection_session st.detection_predictions) "timeout"
           else st.session_history))
    ∧ (∀ (stats : StatsFun) (inf : InfOutcome) (v t : ℚ) (d : AnomalyDetector),
        st.current_detector = some d →
        (st.sample_counter + 1) % 3 = 0 →
        (st.detection_window_complete
          || decide ((predict d inf (process_voltage stats st.processor v t).2).status
              = some "ml_ready")) = true →
        50 ≤ ((st.detection_predictions
            ++ [predict d inf (process_voltage stats st.processor v t).2]).filter
              (fun q => decide (q.status = some "ml_ready"))).length →
        (reading_step stats inf v t st).1.detection_running = false
        ∧ (reading_step stats inf v t st).1.timer_alive = false
        ∧ (reading_step stats inf v t st).1.detection_predictions
            = st.detection_predictions
              ++ [predict d inf (process_voltage stats st.processor v t).2]
        ∧ (reading_step stats inf v t st).1.current_detector = st.current_detector
        ∧ (reading_step stats inf v t st).1.session_history
            = save_session_to_history st.session_history
                (analyze_detection_session (st.detection_predictions
                  ++ [predict d inf (process_voltage stats st.processor v t).2]))
                "analysis_complete") := by
  refine ⟨?_, ?_, ?_⟩
  · simp [handle_stop_detection, h]
  · simp [auto_stop_detection, h]
  · intro stats inf v t d hcd2 hmod hwc hfil
    simp only [reading_step, hcd2]
    split
    · next hcond =>
      split
      · next hstop =>
        refine ⟨?_, ?_, ?_, ?_, ?_⟩ <;> first | rfl | exact hcd2 | trivial
      · next hstop =>
        exact absurd ⟨hwc, hfil⟩ hstop
    · next hcond =>
      exact absurd ⟨h, hmod⟩ hcond

/-- A running post-window state holding 49 `ml_ready` predictions, one
sampled reading away from the count-based completion. -/
def stC6b : ServerState :=
  { detection_running := true, current_detector := some d0,
    sample_counter := 2, processor := ({ sample_count := 100 } : DataProcessor),
    detection_predictions := List.replicate 49 pML,
    detection_window_complete := true, timer_alive := true }

/-- At `stC6b` the sampled reading's prediction is the 50th `ml_ready`
one: the count-based stop condition holds. -/
theorem stC6b_fifty : 50 ≤ ((stC6b.detection_predictions
    ++ [predict d0 (.ok 0) (process_voltage constStats stC6b.processor 0 0).2]).filter
      (fun q => decide (q.status = some "ml_ready"))).length := by
  decide

/-- Witness for C6_finalize_effects at `stC6` (manual stop and timeout)
and at `stC6b` (count-based completion: the 50th `ml_ready` prediction
stops the session and leaves the extended tally in place). -/
theorem C6_finalize_effects_witness :
    stC6.detection_running = true
    ∧ (auto_stop_detection stC6).detection_predictions = stC6.detection_predictions
    ∧ (handle_stop_detection stC6).detection_predictions = []
    ∧ (reading_step constStats (.ok 0) 0 0 stC6b).1.detection_running = false
    ∧ (reading_step constStats (.ok 0) 0 0 stC6b).1.timer_alive = false
    ∧ (reading_step constStats (.ok 0) 0 0 stC6b).1.detection_predictions
        = stC6b.detection_predictions
          ++ [predict d0 (.ok 0) (process_voltage constStats stC6b.processor 0 0).2] :=
  by
  have hC := (C6_finalize_effects stC6b rfl).2.2 constStats (.ok 0) 0 0 d0 rfl rfl rfl
    stC6b_fifty
  exact ⟨rfl, (C6_finalize_effects stC6 rfl).2.1.2.2.1,
    (C6_finalize_effects stC6 rfl).1.2.2.1, hC.1, hC.2.1, hC.2.2.1⟩

/-! ### C8 -/

/-- Does a `LoadOutcome` denote a load failure (file missing,
unsupported format, missing framework, or an exception)? -/
def loadFails : LoadOutcome → Bool
  | .loadedSklearn => false
  | .loadedTensorflow => false
  | .loadedPytorch => false
  | _ => true

/-- Claim C8: load and inference failures never escape to the caller.
Every `load_model` outcome leaves the detector usable
(`is_loaded = true`), and every failing outcome installs the rule-based
fallback; a failed inference call makes `_ml_predict` return exactly
the rule-based result, surfaced only through the `rule_based` method
tag (threshold strictly inside (0,1) keeps the fallback itself off its
division-error path); and through `predict` the failed call yields the
rule-based result with status `ml_ready` — never an exception. -/
theorem C8_fallback (d : AnomalyDetector) (o : LoadOutcome) (sc : Bool)
    (f : Features) (msg : String) :
    ((load_model d o sc).is_loaded = true)
    ∧ (loadFails o = true →
        (load_model d o sc).model_type = some "rule_based"
        ∧ (load_model d o sc).has_model = false)
    ∧ (ml_predict d (.error msg) f = rule_based_predict d f)
    ∧ (0 < d.threshold → d.threshold < 1 →
        (ml_predict d (.error msg) f).method = some "rule_based")
    ∧ (d.window_size ≠ 0 → d.window_size ≤ f.sample_count →
        d.has_model = true → d.model_type ≠ some "rule_based" →
        predict d (.error msg) f
          = { rule_based_predict d f with status := some "ml_ready" }) := by
  refine ⟨?_, ?_, rfl, ?_, ?_⟩
  · cases o <;> rfl
  · intro hf
    cases o <;> first | exact ⟨rfl, rfl⟩ | exact absurd hf (by decide)
  · intro h0 h1
    show (rule_based_predict d f).method = some "rule_based"
    simp only [rule_based_predict]
    repeat' split
    all_goals first | rfl | (exfalso; linarith)
  · intro hw hle hm hmt
    simp only [predict]
    rw [if_neg hw, if_neg (not_lt.mpr hle), if_pos ⟨hm, hmt⟩]
    rfl

/-- Witness for C8_fallback: a raised load error on a tensorflow
detector, and a failed inference on features past the window. -/
theorem C8_fallback_witness :
    (load_model dTF (.raised "boom") false).model_type = some "rule_based"
    ∧ (load_model dTF (.raised "boom") false).is_loaded = true
    ∧ predict dTF (.error "x") fC4
        = { rule_based_predict dTF fC4 with status := some "ml_ready" } :=
  ⟨((C8_fallback dTF (.raised "boom") false fC4 "x").2.1 rfl).1,
   (C8_fallback dTF (.raised "boom") false fC4 "x").1,
   (C8_fallback dTF (.raised "boom") false fC4 "x").2.2.2.2
     (by decide) (by decide) rfl (by decide)⟩

/-! ### C10 -/

/-- A non-empty prediction list analyzes to its length with a decision
that is never `insufficient_data`. -/
theorem analyze_nonempty (preds : List Prediction) (h : preds ≠ []) :
    (analyze_detection_session preds).total_predictions = preds.length
    ∧ (analyze_detection_session preds).decision ≠ "insufficient_data" := by
  simp only [analyze_detection_session]
  rw [if_neg (by simp [h])]
  refine ⟨rfl, ?_⟩
  split
  · simp
  · simp

/-- Any member of a saved history was already present or is the new
entry. -/
theorem mem_save_session_to_history (h : List SessionEntry) (a : SessionAnalysis)
    (r : String) (e : SessionEntry) (he : e ∈ save_session_to_history h a r) :
    e ∈ h ∨ e = { analysis := a, stop_reason := r } := by
  simp only [save_session_to_history] at he
  split at he
  · rcases List.mem_append.mp (List.drop_subset _ _ he) with h1 | h1
    · exact Or.inl h1
    · exact Or.inr (List.mem_singleton.mp h1)
  · rcases List.mem_append.mp he with h1 | h1
    · exact Or.inl h1
    · exact Or.inr (List.mem_singleton.mp h1)

/-- Saving a good analysis preserves the history invariant. -/
theorem historyOK_save (h : List SessionEntry) (a : SessionAnalysis) (r : String)
    (hOK : historyOK h) (ha : 0 < a.total_predictions)
    (hd : a.decision ≠ "insufficient_data") :
    historyOK (save_session_to_history h a r) := by
  intro e he
  rcases mem_save_session_to_history h a r e he with h1 | h1
  · exact hOK e h1
  · rw [h1]
    exact ⟨ha, hd⟩

/-- The scoring-loop step either leaves the history alone or archives
the analysis of the just-extended (hence non-empty) tally. -/
theorem reading_step_history (stats : StatsFun) (inf : InfOutcome) (v t : ℚ)
    (st : ServerState) :
    (reading_step stats inf v t st).1.session_history = st.session_history
    ∨ ∃ p, (reading_step stats inf v t st).1.session_history
        = save_session_to_history st.session_history
            (analyze_detection_session (st.detection_predictions ++ [p]))
            "analysis_complete" := by
  rcases hcd : st.current_detector with _ | d
  · simp [reading_step, hcd]
  · simp only [reading_step, hcd]
    split
    · split
      · right
        exact ⟨_, rfl⟩
      · left
        rfl
    · left
      rfl

/-- Claim C10: every finalize path (manual stop, timeout, count-based
completion inside the reading loop) archives only analyses of at least
one prediction, whose decision is then `anomalous` or `normal` — so an
`insufficient_data` verdict never enters the session history. -/
theorem C10_history_entries (st : ServerState) (hOK : historyOK st.session_history) :
    historyOK (handle_stop_detection st).session_history
    ∧ historyOK (auto_stop_detection st).session_history
    ∧ ∀ (stats : StatsFun) (inf : InfOutcome) (v t : ℚ),
        historyOK ((reading_step stats inf v t st).1.session_history) := by
  have harch : ∀ r : String,
      historyOK (if 0 < (analyze_detection_session st.detection_predictions).total_predictions
        then save_session_to_history st.session_history
              (analyze_detection_session st.detection_predictions) r
        else st.session_history) := by
    intro r
    split
    · next hpos =>
      have hne : st.detection_predictions ≠ [] := by
        intro hnil
        rw [hnil] at hpos
        simp [analyze_detection_session] at hpos
      exact historyOK_save _ _ _ hOK hpos (analyze_nonempty _ hne).2
    · exact hOK
  refine ⟨?_, ?_, ?_⟩
  · simp only [handle_stop_detection]
    split
    · exact hOK
    · exact harch "manual_stop"
  · simp only [auto_stop_detection]
    split
    · exact harch "timeout"
    · exact hOK
  · intro stats inf v t
    rcases reading_step_history stats inf v t st with h1 | ⟨p, h1⟩
    · rw [h1]
      exact hOK
    · rw [h1]
      have hne : st.detection_predictions ++ [p] ≠ [] := by simp
      exact historyOK_save _ _ _ hOK
        (by rw [(analyze_nonempty _ hne).1]; simp)
        (analyze_nonempty _ hne).2

/-- Witness for C10_history_entries: manual stop of `stC6` (one
collected prediction, empty history) leaves a history every entry of
which has a positive prediction count. -/
theorem C10_history_entries_witness :
    historyOK (handle_stop_detection stC6).session_history :=
  (C10_history_entries stC6 (by intro e he; simp [stC6] at he)).1

/-! ### C3 -/

/-- Appending to a bounded deque with room bumps the length, capped at
the bound. -/
theorem dequeAppend_length (W : ℕ) (buf : List ℚ) (v : ℚ) (h : buf.length ≤ W) :
    (dequeAppend W buf v).length = min (buf.length + 1) W := by
  simp only [dequeAppend]
  split
  · simp only [List.length_drop, List.length_append, List.length_cons,
      List.length_nil] at *
    omega
  · simp only [List.length_append, List.length_cons, List.length_nil] at *
    omega

/-- Bookkeeping of a run of `process_voltage`: the monotone sample
count, the preserved window size, and the buffer length capped at the
window size. -/
theorem processAll_fst (stats : StatsFun) (rs : List (ℚ × ℚ)) :
    ∀ dp : DataProcessor,
      ((processAll stats dp rs).1).sample_count = dp.sample_count + rs.length
      ∧ ((processAll stats dp rs).1).window_size = dp.window_size
      ∧ (dp.voltage_buffer.length ≤ dp.window_size →
          ((processAll stats dp rs).1).voltage_buffer.length
            = min (dp.voltage_buffer.length + rs.length) dp.window_size) := by
  induction rs with
  | nil =>
    intro dp
    refine ⟨by simp [processAll], by simp [processAll], ?_⟩
    intro h
    simp [processAll]
    omega
  | cons r rs ih =>
    intro dp
    obtain ⟨ih1, ih2, ih3⟩ := ih (process_voltage stats dp r.1 r.2).1
    have hstep1 : (process_voltage stats dp r.1 r.2).1.sample_count
        = dp.sample_count + 1 := rfl
    have hstep2 : (process_voltage stats dp r.1 r.2).1.window_size = dp.window_size := rfl
    have hstep3 : (process_voltage stats dp r.1 r.2).1.voltage_buffer
        = dequeAppend dp.window_size dp.voltage_buffer r.1 := rfl
    refine ⟨?_, ?_, ?_⟩
    · show ((processAll stats (process_voltage stats dp r.1 r.2).1 rs).1).sample_count
          = dp.sample_count + (rs.length + 1)
      rw [ih1, hstep1]
      omega
    · show ((processAll stats (process_voltage stats dp r.1 r.2).1 rs).1).window_size
          = dp.window_size
      rw [ih2, hstep2]
    · intro h
      have hlen : (process_voltage stats dp r.1 r.2).1.voltage_buffer.length
          = min (dp.voltage_buffer.length + 1) dp.window_size := by
        rw [hstep3]
        exact dequeAppend_length _ _ _ h
      have hle : (process_voltage stats dp r.1 r.2).1.voltage_buffer.length
          ≤ (process_voltage stats dp r.1 r.2).1.window_size := by
        rw [hlen, hstep2]
        omega
      show ((processAll stats (process_voltage stats dp r.1 r.2).1 rs).1).voltage_buffer.length
          = min (dp.voltage_buffer.length + (rs.length + 1)) dp.window_size
      rw [ih3 hle, hlen, hstep2]
      omega

/-- Every feature dict produced during a run carries a sample count
strictly above the starting count and at most count + run length. -/
theorem mem_processAll_sample_count (stats : StatsFun) (rs : List (ℚ × ℚ)) :
    ∀ (dp : DataProcessor) (f : Features), f ∈ (processAll stats dp rs).2 →
      dp.sample_count < f.sample_count
      ∧ f.sample_count ≤ dp.sample_count + rs.length := by
  induction rs with
  | nil =>
    intro dp f hf
    simp [processAll] at hf
  | cons r rs ih =>
    intro dp f hf
    have hstep : (process_voltage stats dp r.1 r.2).1.sample_count
        = dp.sample_count + 1 := rfl
    have hlc : (r :: rs).length = rs.length + 1 := rfl
    rcases List.mem_cons.mp hf with h1 | h1
    · have hfc : f.sample_count = dp.sample_count + 1 := by rw [h1]; rfl
      omega
    · obtain ⟨hl, hr⟩ := ih _ f h1
      omega

/-- Claim C3: with processor and detector window size `W ≥ 1`, every
prediction on a reading sequence shorter than `W` is the warming-up
short-circuit — score 0, not anomalous, independent of the inference
backend (which is therefore never invoked) — and the `W`-th reading
produces `window_full = true`, `sample_count = W`, and a prediction
with status `ml_ready`. -/
theorem C3_warming_and_ready (W : ℕ) (stats : StatsFun) (rs : List (ℚ × ℚ))
    (d : AnomalyDetector) (inf : InfOutcome) (hW : 1 ≤ W) (hd : d.window_size = W) :
    (rs.length < W → ∀ f ∈ (processAll stats (freshProcessor W) rs).2,
      predict d inf f =
        { anomaly_score := some 0, is_anomaly := some false, confidence := some 0,
          method := some (d.model_type.getD "rule_based"), status := some "warming_up" })
    ∧ (∀ v t, rs.length + 1 = W →
        ((process_voltage stats (processAll stats (freshProcessor W) rs).1 v t).2).window_full
            = true
        ∧ ((process_voltage stats (processAll stats (freshProcessor W) rs).1 v t).2).sample_count
            = W
        ∧ (predict d inf
            (process_voltage stats (processAll stats (freshProcessor W) rs).1 v t).2).status
              = some "ml_ready") := by
  constructor
  · intro hlen f hf
    obtain ⟨h1, h2⟩ := mem_processAll_sample_count stats rs (freshProcessor W) f hf
    have hfresh : (freshProcessor W).sample_count = 0 := rfl
    have hsc : f.sample_count < W := by omega
    simp only [predict, hd]
    rw [if_neg (by omega), if_pos hsc]
  · intro v t hlen
    obtain ⟨hc, hw, hb⟩ := processAll_fst stats rs (freshProcessor W)
    have hfreshb : (freshProcessor W).voltage_buffer.length = 0 := rfl
    have hfreshw : (freshProcessor W).window_size = W := rfl
    have hfreshc : (freshProcessor W).sample_count = 0 := rfl
    have hbl : ((processAll stats (freshProcessor W) rs).1).voltage_buffer.length
        = rs.length := by
      have h3 := hb (by rw [hfreshb]; omega)
      rw [hfreshb, hfreshw] at h3
      omega
    have hwW : ((processAll stats (freshProcessor W) rs).1).window_size = W := by
      rw [hw, hfreshw]
    have hscW : ((process_voltage stats (processAll stats (freshProcessor W) rs).1 v t).2).sample_count
        = W := by
      show ((processAll stats (freshProcessor W) rs).1).sample_count + 1 = W
      rw [hc, hfreshc]
      omega
    refine ⟨?_, hscW, ?_⟩
    · show decide (((processAll stats (freshProcessor W) rs).1).window_size ≤
          (dequeAppend ((processAll stats (freshProcessor W) rs).1).window_size
            ((processAll stats (freshProcessor W) rs).1).voltage_buffer v).length) = true
      have hdl : (dequeAppend ((processAll stats (freshProcessor W) rs).1).window_size
          ((processAll stats (freshProcessor W) rs).1).voltage_buffer v).length = W := by
        rw [dequeAppend_length _ _ _ (by rw [hbl, hwW]; omega), hbl, hwW]
        omega
      rw [hdl, hwW]
      simp
    · simp only [predict, hd]
      rw [if_neg (by omega), if_neg (by rw [hscW]; omega)]

/-- A detector with window size 2, for small witnesses. -/
def dW2 : AnomalyDetector := { window_size := 2 }

/-- Witness for C3_warming_and_ready with `W = 2`: the first reading
yields the warming-up short-circuit, the second flips `window_full`
and `ml_ready`. -/
theorem C3_warming_and_ready_witness :
    predict dW2 (.ok 0) (process_voltage constStats (freshProcessor 2) 0 0).2
      = { anomaly_score := some 0, is_anomaly := some false, confidence := some 0,
          method := some (dW2.model_type.getD "rule_based"), status := some "warming_up" }
    ∧ ((process_voltage constStats
          (processAll constStats (freshProcessor 2) [((0:ℚ), (0:ℚ))]).1 0 0).2).window_full
        = true
    ∧ (predict dW2 (.ok 0)
        (process_voltage constStats
          (processAll constStats (freshProcessor 2) [((0:ℚ), (0:ℚ))]).1 0 0).2).status
        = some "ml_ready" := by
  have h := C3_warming_and_ready 2 constStats [((0:ℚ), (0:ℚ))] dW2 (.ok 0) (by omega) rfl
  exact ⟨h.1 (by simp) _ (List.mem_singleton.mpr rfl),
         (h.2 0 0 rfl).1, (h.2 0 0 rfl).2.2⟩

/-! ### C7 -/

/-- Every loop iteration — sampled or not — bumps the counter and runs
the feature extractor on the reading. -/
theorem reading_step_always (stats : StatsFun) (inf : InfOutcome) (v t : ℚ)
    (st : ServerState) :
    (reading_step stats inf v t st).1.sample_counter = st.sample_counter + 1
    ∧ (reading_step stats inf v t st).1.processor
        = (process_voltage stats st.processor v t).1 := by
  rcases hcd : st.current_detector with _ | d
  · simp only [reading_step, hcd]
    refine ⟨?_, ?_⟩ <;> first | rfl | trivial
  · simp only [reading_step, hcd]
    repeat' split
    all_goals refine ⟨?_, ?_⟩ <;> first | rfl | trivial

/-- A prediction is made on a loop iteration exactly when detection is
running, a detector is loaded, and the bumped counter is divisible by
3 (`SAMPLE_EVERY_N`). -/
theorem reading_step_scored_iff (stats : StatsFun) (inf : InfOutcome) (v t : ℚ)
    (st : ServerState) :
    ((reading_step stats inf v t st).2).isSome
      ↔ (st.detection_running = true ∧ st.current_detector.isSome = true
          ∧ (st.sample_counter + 1) % 3 = 0) := by
  rcases hcd : st.current_detector with _ | d
  · simp [reading_step, hcd]
  · simp only [reading_step, hcd]
    split
    · next hcond =>
      exact ⟨fun _ => ⟨hcond.1, rfl, hcond.2⟩, fun _ => rfl⟩
    · next hcond =>
      refine ⟨fun hno => absurd hno (by simp), fun hrhs => ?_⟩
      exact absurd ⟨hrhs.1, hrhs.2.2⟩ hcond

/-- One running loop iteration with at most 48 collected predictions
stays running (the 50-prediction auto-stop cannot fire), keeps the
detector, bumps the counter, and appends exactly one prediction when
the sampling gate passes. -/
theorem reading_step_run (stats : StatsFun) (inf : InfOutcome) (v t : ℚ)
    (st : ServerState) (hr : st.detection_running = true)
    (hp : st.detection_predictions.length ≤ 48) :
    (reading_step stats inf v t st).1.detection_running = true
    ∧ (reading_step stats inf v t st).1.current_detector = st.current_detector
    ∧ (reading_step stats inf v t st).1.sample_counter = st.sample_counter + 1
    ∧ (reading_step stats inf v t st).1.detection_predictions.length
        = st.detection_predictions.length
          + (if st.current_detector.isSome = true ∧ (st.sample_counter + 1) % 3 = 0
             then 1 else 0) := by
  rcases hcd : st.current_detector with _ | d
  · simp only [reading_step, hcd]
    refine ⟨?_, ?_, ?_, ?_⟩ <;> first | exact hr | rfl | trivial | simp
  · simp only [reading_step, hcd]
    split
    · next hcond =>
      split
      · next hstop =>
        exfalso
        obtain ⟨-, hge⟩ := hstop
        have hle := List.length_filter_le
          (fun q => decide (q.status = some "ml_ready"))
          (st.detection_predictions
            ++ [predict d inf (process_voltage stats st.processor v t).2])
        have hlen : (st.detection_predictions
            ++ [predict d inf (process_voltage stats st.processor v t).2]).length
            = st.detection_predictions.length + 1 := by simp
        omega
      · next =>
        refine ⟨?_, ?_, ?_, ?_⟩ <;>
          first | exact hr | exact hcd | rfl | trivial | simp [hcond.2]
    · next hcond =>
      have hmod : ¬ ((st.sample_counter + 1) % 3 = 0) := fun hm => hcond ⟨hr, hm⟩
      refine ⟨?_, ?_, ?_, ?_⟩ <;>
        first | exact hr | exact hcd | rfl | trivial | simp [hmod]

/-- Over a run of consecutive readings that cannot hit the
50-prediction stop, the tally grows by exactly the number of readings
whose bumped counter is divisible by 3. -/
theorem runReadings_scored (stats : StatsFun) (inf : InfOutcome) (rs : List (ℚ × ℚ)) :
    ∀ st : ServerState, st.detection_running = true →
      st.current_detector.isSome = true →
      st.detection_predictions.length + rs.length ≤ 49 →
      (runReadings stats inf rs st).detection_predictions.length
        = st.detection_predictions.length + countScored st.sample_counter rs.length := by
  induction rs with
  | nil =>
    intro st h1 h2 h3
    simp [runReadings, countScored]
  | cons r rs ih =>
    intro st h1 h2 h3
    have hlc : (r :: rs).length = rs.length + 1 := rfl
    obtain ⟨s1, s2, s3, s4⟩ := reading_step_run stats inf r.1 r.2 st h1 (by omega)
    have hone : (reading_step stats inf r.1 r.2 st).1.detection_predictions.length
        ≤ st.detection_predictions.length + 1 := by
      rw [s4]
      split <;> omega
    have h2' : (reading_step stats inf r.1 r.2 st).1.current_detector.isSome = true := by
      rw [s2]
      exact h2
    have h3' : (reading_step stats inf r.1 r.2 st).1.detection_predictions.length
        + rs.length ≤ 49 := by omega
    show (runReadings stats inf rs (reading_step stats inf r.1 r.2 st).1).detection_predictions.length
        = st.detection_predictions.length + countScored st.sample_counter (rs.length + 1)
    rw [ih _ s1 h2' h3', s4, s3]
    simp only [countScored, h2, true_and]
    by_cases hmod : (st.sample_counter + 1) % 3 = 0 <;> simp [hmod] <;> omega

/-- The sampling count over a window depends only on the counter
mod 3. -/
theorem countScored_mod (k : ℕ) : ∀ c, countScored c k = countScored (c % 3) k := by
  induction k with
  | zero => intro c; rfl
  | succ k ih =>
    intro c
    simp only [countScored]
    have h1 : (c + 1) % 3 = (c % 3 + 1) % 3 := by omega
    rw [h1, ih (c + 1), ih (c % 3 + 1)]
    have h2 : (c + 1) % 3 = (c % 3 + 1) % 3 := by omega
    rw [h2]

/-- Among any 10 consecutive readings the mod-3 gate passes 3 or 4 of
them, depending on the counter phase. -/
theorem countScored_ten (c : ℕ) : countScored c 10 = 3 ∨ countScored c 10 = 4 := by
  rw [countScored_mod]
  have h : c % 3 = 0 ∨ c % 3 = 1 ∨ c % 3 = 2 := by omega
  rcases h with h | h | h <;> rw [h]
  · left
    decide
  · left
    decide
  · right
    decide

/-- A running post-window state: processor past the window
(sample_count 100), sampling counter at 2, empty tally. -/
def stC7 : ServerState :=
  { detection_running := true, current_detector := some d0,
    sample_counter := 2, processor := ({ sample_count := 100 } : DataProcessor),
    timer_alive := true }

/-- Ten consecutive readings. -/
def rs10 : List (ℚ × ℚ) :=
  [(0,0),(0,0),(0,0),(0,0),(0,0),(0,0),(0,0),(0,0),(0,0),(0,0)]

/-- Claim C7 is false on the code: from counter 2, the 10 consecutive
readings bump the counter through 3..12, of which four values (3, 6,
9, 12) are divisible by 3 — so exactly 4, not 3, of these 10 readings
are forwarded to the scorer. -/
theorem C7_counterexample :
    rs10.length = 10
    ∧ (runReadings constStats (.ok 0) rs10 stC7).detection_predictions.length = 4
    ∧ (4 : ℕ) ≠ 3 := by
  refine ⟨rfl, ?_, by decide⟩
  rw [runReadings_scored constStats (.ok 0) rs10 stC7 rfl rfl (by decide)]
  decide

/-- Claim C7 (amended): every reading — sampled or not — is run through
the feature extractor and its raw event published; a reading is
forwarded to the scorer exactly when detection runs with a detector
and its bumped counter is divisible by 3; over a run that cannot hit
the 50-prediction stop the number scored equals the number of counter
values divisible by 3, which over any 10 consecutive readings is 3 or
4 (4 when the counter enters the run at 2 mod 3) — never exactly 3 for
all phases. -/
theorem C7_sampling (stats : StatsFun) (inf : InfOutcome) (v t : ℚ)
    (st : ServerState) (rs : List (ℚ × ℚ)) (c : ℕ) :
    ((reading_step stats inf v t st).1.sample_counter = st.sample_counter + 1
      ∧ (reading_step stats inf v t st).1.processor
          = (process_voltage stats st.processor v t).1)
    ∧ (((reading_step stats inf v t st).2).isSome
        ↔ (st.detection_running = true ∧ st.current_detector.isSome = true
            ∧ (st.sample_counter + 1) % 3 = 0))
    ∧ (st.detection_running = true → st.current_detector.isSome = true →
        st.detection_predictions.length + rs.length ≤ 49 →
        (runReadings stats inf rs st).detection_predictions.length
          = st.detection_predictions.length + countScored st.sample_counter rs.length)
    ∧ (countScored c 10 = 3 ∨ countScored c 10 = 4) :=
  ⟨reading_step_always stats inf v t st,
   reading_step_scored_iff stats inf v t st,
   runReadings_scored stats inf rs st,
   countScored_ten c⟩

/-- Witness for C7_sampling at the concrete post-window run. -/
theorem C7_sampling_witness :
    (runReadings constStats (.ok 0) rs10 stC7).detection_predictions.length
      = stC7.detection_predictions.length + countScored stC7.sample_counter rs10.length
    ∧ (countScored 2 10 = 3 ∨ countScored 2 10 = 4) :=
  ⟨(C7_sampling constStats (.ok 0) 0 0 stC7 rs10 2).2.2.1 rfl rfl (by decide),
   (C7_sampling constStats (.ok 0) 0 0 stC7 rs10 2).2.2.2⟩
